import Mathlib

/-!
Verification development for the cached, paginated data-collection and merge
pipeline of the gh-easy-crawler repository (src/cdc.py).

The Python functions are shallowly embedded as executable Lean definitions:

* Python `str` values are Lean `String`s; `len` is `String.length` (both count
  code points), `str.strip()` is `pyStrip` (ASCII whitespace), `len(s.split())`
  is `countWords`, `len(s.encode("utf-8"))` is `utf8Len`.
* A JSON text field that may be absent or `null` is the inductive `JField`
  (`missing` / `null` / `str`), so that `d.get(k)` vs `d.get(k, "")` and the
  `x or ""` idiom can be distinguished faithfully.
* Python dict rows are association lists `Row = List (String × Val)` with
  `Val` the string-or-int value type; `dget`, `dupdate` embed `dict.get` and
  `dict.update` (existing keys keep their position, new keys are appended).
* Raised exceptions are `Except.error`; message texts follow the source with
  quote characters elided.
* `datetime` values (totally ordered) are embedded as `Int` timestamps.
* On-disk page caches are functions `Nat → Option (List CRec)` from page
  number to page contents; the unbounded `while` loop over page numbers is
  given explicit fuel, which is irrelevant whenever some page is missing
  below the fuel bound.
-/

/-- ASCII whitespace, as stripped/split by Python `str.strip()` / `str.split()`
on the data in scope. -/
def pyIsSpace (c : Char) : Bool :=
  c = ' ' || c = '\t' || c = '\n' || c = '\r' || c = '\x0b' || c = '\x0c'

/-- Python `s.strip()`: drop leading and trailing whitespace. -/
def pyStrip (s : String) : String :=
  String.mk (((s.data.dropWhile pyIsSpace).reverse.dropWhile pyIsSpace).reverse)

/-- Helper for `countWords`: count maximal runs of non-whitespace characters.
The Bool flag records whether the previous character was inside a word. -/
def countWordsAux : List Char → Bool → Nat
  | [], _ => 0
  | c :: rest, inWord =>
    if pyIsSpace c then countWordsAux rest false
    else (if inWord then 0 else 1) + countWordsAux rest true

/-- Python `len(s.split())`: the number of whitespace-delimited tokens. -/
def countWords (s : String) : Nat := countWordsAux s.data false

/-- UTF-8 encoded size of one character. -/
def charUtf8Size (c : Char) : Nat :=
  if c.val < 0x80 then 1 else if c.val < 0x800 then 2
  else if c.val < 0x10000 then 3 else 4

/-- Python `len(s.encode("utf-8"))`. -/
def utf8Len (s : String) : Nat := s.data.foldl (fun n c => n + charUtf8Size c) 0

/-- Python `x or ""` applied to an optional string (`None` and `""` are both
falsy and yield `""`). -/
def pyOrEmpty : Option String → String
  | none => ""
  | some s => s

/-- A JSON text field: absent key, explicit null, or a string value. -/
inductive JField where
  | missing : JField
  | null : JField
  | str : String → JField
deriving DecidableEq, Repr

/-- Python `d.get(k)` on a `JField`: both a missing key and a null value give
`None`. -/
def getBody : JField → Option String
  | .missing => none
  | .null => none
  | .str s => some s

/-- A comment / review / review-thread record, reduced to the one field the
aggregation code reads: `body`. -/
structure CRec where
  body : JField
deriving DecidableEq, Repr

/-- Uppercase A–Z, the `[A-Z]` regex class. -/
def isUpperAZ (c : Char) : Bool := 'A' ≤ c && c ≤ 'Z'

/-- Digits 0–9, the `\d` regex class. -/
def isDigit09 (c : Char) : Bool := '0' ≤ c && c ≤ '9'

/-- Try to match the regex `\[[A-Z]+-\d+\]` (TITLE_PATTERN in src/cdc.py) at
the head of the character list; return the matched characters. Because the
character classes of adjacent regex atoms are disjoint, greedy matching with
backtracking is equivalent to taking maximal runs. -/
def matchKeyAt (cs : List Char) : Option (List Char) :=
  match cs with
  | '[' :: rest =>
    let letters := rest.takeWhile isUpperAZ
    let r1 := rest.dropWhile isUpperAZ
    if letters.isEmpty then none
    else
      match r1 with
      | '-' :: r2 =>
        let digits := r2.takeWhile isDigit09
        let r3 := r2.dropWhile isDigit09
        if digits.isEmpty then none
        else
          match r3 with
          | ']' :: _ => some ('[' :: (letters ++ '-' :: (digits ++ [']'])))
          | _ => none
      | _ => none
  | _ => none

/-- Embedding of `re.search` for TITLE_PATTERN: the leftmost match in the string. -/
def searchKey : List Char → Option (List Char)
  | [] => none
  | c :: rest =>
    match matchKeyAt (c :: rest) with
    | some m => some m
    | none => searchKey rest

/-- Python `s.strip("[ ]")`: drop leading and trailing characters belonging to
the set `\x7b '[', ' ', ']' \x7d`. -/
def stripBrk (cs : List Char) : List Char :=
  ((cs.dropWhile (fun c => c = '[' || c = ' ' || c = ']')).reverse.dropWhile
      (fun c => c = '[' || c = ' ' || c = ']')).reverse

/-- Embedding of `extract_bug_id_from_title` (src/cdc.py:70): search TITLE_PATTERN in the
title, strip the delimiting brackets, or yield none. -/
def extract_bug_id_from_title (title : String) : Option String :=
  (searchKey title.data).map (fun m => String.mk (stripBrk m))

/-- Embedding of `_matches_title_in_bug_ids` (src/cdc.py:129): search the pattern in the
title and test membership of the stripped match in the allow-list. -/
def matchesTitleInBugIds (title : String) (bug_ids : List String) : Bool :=
  match searchKey title.data with
  | none => false
  | some m => decide (String.mk (stripBrk m) ∈ bug_ids)

/-- A row value: Python rows mix strings (timestamps, ids, joined lists) and
ints (the metric counters). -/
inductive Val where
  | str : String → Val
  | int : Int → Val
deriving DecidableEq, Repr

/-- A metric row: a Python dict embedded as an association list in key
insertion order. -/
abbrev Row := List (String × Val)

/-- Python `row.get(k)`. -/
def dget (r : Row) (k : String) : Option Val :=
  (r.find? (fun kv => decide (kv.1 = k))).map (fun kv => kv.2)

/-- Python `k in row`. -/
def containsKey (r : Row) (k : String) : Bool :=
  r.any (fun kv => decide (kv.1 = k))

/-- Python `old.update(new)`: keys already present keep their position and
receive the new value; keys only in `new` are appended in order. -/
def dupdate (old new : Row) : Row :=
  (old.map (fun kv =>
    match dget new kv.1 with
    | some v => (kv.1, v)
    | none => kv))
  ++ new.filter (fun kv => !containsKey old kv.1)

/-- Python truthiness of a row value (`if existing.get("bug_id")`). -/
def truthy : Val → Bool
  | .str s => s ≠ ""
  | .int n => n ≠ 0

/-- One aggregate metric group: count / characters / words / UTF-8 bytes. -/
structure Agg where
  count : Int
  chars : Int
  words : Int
  bytes : Int
deriving DecidableEq, Repr

/-- Text taken from an issue comment (src/cdc.py:402):
`str(comment.get("body") or "").strip()` — a missing key or null value becomes
the empty string, then whitespace is stripped. -/
def issueCommentText (c : CRec) : String := pyStrip (pyOrEmpty (getBody c.body))

/-- The `collect_issue_comments` aggregation loop (src/cdc.py:401–412). -/
def aggIssueComments (cs : List CRec) : Agg :=
  let r := cs.foldl
    (fun (acc : Int × Int × Int) c =>
      let text := issueCommentText c
      (acc.1 + (text.length : Int), acc.2.1 + (countWords text : Int),
        acc.2.2 + (utf8Len text : Int)))
    (0, 0, 0)
  ⟨(cs.length : Int), r.1, r.2.1, r.2.2⟩

/-- Text taken from a review comment (src/cdc.py:435):
`str(comment.get("body","").strip())` — a missing key defaults to `""`, but a
null value reaches `.strip()` as `None` and raises AttributeError. -/
def reviewCommentText (c : CRec) : Except String String :=
  match c.body with
  | .missing => .ok (pyStrip "")
  | .null => .error "AttributeError: NoneType object has no attribute strip"
  | .str s => .ok (pyStrip s)

/-- Accumulator loop of `collect_review_comments` (src/cdc.py:434–438). -/
def aggReviewCommentsAux : List CRec → Int → Int → Int → Except String (Int × Int × Int)
  | [], a, b, c => .ok (a, b, c)
  | r :: rest, a, b, c =>
    match reviewCommentText r with
    | .error e => .error e
    | .ok text =>
      aggReviewCommentsAux rest (a + (text.length : Int))
        (b + (countWords text : Int)) (c + (utf8Len text : Int))

/-- The `collect_review_comments` aggregation (src/cdc.py:434–445). -/
def aggReviewComments (cs : List CRec) : Except String Agg :=
  match aggReviewCommentsAux cs 0 0 0 with
  | .error e => .error e
  | .ok (a, b, c) => .ok ⟨(cs.length : Int), a, b, c⟩

/-- The review-bloc predicate `(x.get("body") or "").strip() != ""`
(src/cdc.py:466–470 and 478–482). -/
def blocBodyNonEmpty (c : CRec) : Bool :=
  pyStrip (pyOrEmpty (getBody c.body)) ≠ ""

/-- The `collect_review_blocs` aggregation over already-resolved records
(src/cdc.py:478–495): the non-empty-body filter is applied to the resolved
list, then counts are accumulated. -/
def aggReviewBlocs (cs : List CRec) : Agg :=
  let blocs := cs.filter blocBodyNonEmpty
  let r := blocs.foldl
    (fun (acc : Int × Int × Int) c =>
      let text := pyStrip (pyOrEmpty (getBody c.body))
      (acc.1 + (text.length : Int), acc.2.1 + (countWords text : Int),
        acc.2.2 + (utf8Len text : Int)))
    (0, 0, 0)
  ⟨(blocs.length : Int), r.1, r.2.1, r.2.2⟩

example : aggIssueComments [⟨.str "hi"⟩, ⟨.str "there you go"⟩] = ⟨2, 14, 4, 14⟩ := by decide

example : extract_bug_id_from_title "[X-1] add feature" = some "X-1" := by decide

example : extract_bug_id_from_title "random title" = none := by decide

/-- A page cache on disk for one (operation, item-number): page number to page
contents, `none` when the page file does not exist. -/
abbrev PageCache := Nat → Option (List CRec)

/-- The `while` loop of `_load_cached_issue_comments` (src/cdc.py:157–165):
starting at `page`, concatenate pages while their files exist; the Bool is the
`cache_hit` flag, set as soon as one page is found (so it equals existence of
the start page). The structurally identical loaders for review comments,
reviews and files (src/cdc.py:168–216) differ only in the filename pattern,
which the `PageCache` abstracts. `fuel` bounds the loop and is irrelevant as
long as a missing page occurs below it. -/
def loadCachedPages (cache : PageCache) : Nat → Nat → List CRec × Bool
  | 0, _ => ([], false)
  | fuel + 1, page =>
    match cache page with
    | none => ([], false)
    | some recs => (recs ++ (loadCachedPages cache fuel (page + 1)).1, true)

/-- The network pagination loop of `collect_issue_comments`
(src/cdc.py:386–399) over the successive batches the remote API would return:
stop on an empty batch, accumulate, stop after a batch shorter than
`per_page`. -/
def fetchLoop (perPage : Nat) : List (List CRec) → List CRec
  | [] => []
  | batch :: rest =>
    if batch.isEmpty then []
    else batch ++ (if batch.length < perPage then [] else fetchLoop perPage rest)

/-- Embedding of `collect_issue_comments`, resolution part (src/cdc.py:383–399): prefer the
cached pages; hit the network only when no page-1 cache file exists. The Bool
records whether the network branch ran. -/
def resolveIssueComments (cache : PageCache) (fuel perPage : Nat)
    (netPages : List (List CRec)) : List CRec × Bool :=
  let r := loadCachedPages cache fuel 1
  if r.2 then (r.1, false) else (r.1 ++ fetchLoop perPage netPages, true)

/-- The network pagination loop of `collect_review_blocs` (src/cdc.py:457–474):
same stopping rule, but each batch is filtered to non-empty-body records
before being accumulated. -/
def fetchBlocsLoop (perPage : Nat) : List (List CRec) → List CRec
  | [] => []
  | batch :: rest =>
    if batch.isEmpty then []
    else
      batch.filter blocBodyNonEmpty
        ++ (if batch.length < perPage then [] else fetchBlocsLoop perPage rest)

/-- Embedding of `collect_review_blocs` on the cache path: the raw cached pages are
concatenated (src/cdc.py:185–199) and then the non-empty-body filter of
src/cdc.py:478–482 is applied. -/
def collectBlocsFromCache (pages : List (List CRec)) : List CRec :=
  pages.flatten.filter blocBodyNonEmpty

/-- Embedding of `collect_review_blocs` on the network path: the pagination loop with its
per-batch filter, followed by the same final filter of src/cdc.py:478–482. -/
def collectBlocsFromNetwork (perPage : Nat) (pages : List (List CRec)) : List CRec :=
  (fetchBlocsLoop perPage pages).filter blocBodyNonEmpty

/-- Well-formed pagination: every page except possibly the last holds at least
`perPage` records (the remote API fills pages up to `per_page`). -/
def pagesWellFormed (perPage : Nat) (pages : List (List CRec)) : Prop :=
  ∀ l ∈ pages.dropLast, perPage ≤ l.length

/-- A user object carried by a branch descriptor. -/
structure BUser where
  login : Option String
deriving DecidableEq, Repr

/-- A head/base branch descriptor of a pull request. -/
structure Branch where
  label : Option String
  user : Option BUser
deriving DecidableEq, Repr

/-- A label object (`l.get("name")`). -/
structure LabelRec where
  name : Option String
deriving DecidableEq, Repr

/-- A changed-file object (`f.get("filename")`). -/
structure FileRec where
  filename : Option String
deriving DecidableEq, Repr

/-- The single-item pull detail payload read by `collect_get_pr_detail`. -/
structure PRDetail where
  title : JField
  body : JField
  comments : Int
  review_comments : Int
deriving DecidableEq, Repr

/-- A raw pull-request item, together with the records that the cache-or-fetch
resolvers yield for it (the collectors are deterministic in those records, so
the resolved lists stand in for the crawler + cache pair here; resolution
itself is modelled by `resolveIssueComments` and friends above).
`created_time` is the parsed `created_at` timestamp used by the filter;
`created_at` is the raw string written into the row. -/
structure Pull where
  number : Option Int
  title : Option String
  merge_commit_sha : Option String
  created_at : Option String
  created_time : Option Int
  updated_at : Option String
  closed_at : Option String
  merged_at : Option String
  labels : List LabelRec
  head : Option Branch
  base : Option Branch
  detail : PRDetail
  files : List FileRec
  issue_comments : List CRec
  review_comments : List CRec
  review_blocs : List CRec
deriving DecidableEq, Repr

/-- Embedding of `collect_labels` (src/cdc.py:342): `filter(None, ...)` drops both missing
names and empty strings. -/
def collectLabels (p : Pull) : List String :=
  (p.labels.filterMap LabelRec.name).filter (fun s => s ≠ "")

/-- Embedding of `collect_files_changed`, projection part (src/cdc.py:339). -/
def collectFilesChanged (p : Pull) : List String :=
  (p.files.filterMap FileRec.filename).filter (fun s => s ≠ "")

/-- The four scalars of `collect_get_pr_detail`. -/
structure PrDetailAgg where
  title_chars : Int
  body_chars : Int
  comments_count : Int
  review_comments_count : Int
deriving DecidableEq, Repr

/-- Python `pr_detail.get("title","")` followed by `if t is None: t = ""`. -/
def fieldOrEmpty : JField → String
  | .missing => ""
  | .null => ""
  | .str s => s

/-- Embedding of `collect_get_pr_detail` (src/cdc.py:345–372) over the resolved detail. -/
def collectGetPrDetail (p : Pull) : PrDetailAgg :=
  { title_chars := ((pyStrip (fieldOrEmpty p.detail.title)).length : Int)
  , body_chars := ((pyStrip (fieldOrEmpty p.detail.body)).length : Int)
  , comments_count := p.detail.comments
  , review_comments_count := p.detail.review_comments }

/-- Embedding of `_get_branch_name_and_login` (src/cdc.py:541–564): validate the `where`
argument, then require branch, label, user and login to be present. -/
def getBranchNameAndLogin (p : Pull) (w : String) : Except String (String × String) :=
  if w ≠ "head" ∧ w ≠ "base" then
    .error "Pull request only consider head branch or base branch."
  else
    match (if w = "head" then p.head else p.base) with
    | none => .error ("Branch " ++ w ++ " is None. Double check it.")
    | some b =>
      match b.label with
      | none => .error ("Branch " ++ w ++ ".label is None. Double check it.")
      | some name =>
        match b.user with
        | none => .error ("Branch " ++ w ++ ".user is None. Double check it.")
        | some u =>
          match u.login with
          | none => .error ("Branch " ++ w ++ ".user.login is None. Double check it.")
          | some login => .ok (name, login)

/-- The `new_row` dict of `summarize_pulls` (src/cdc.py:576–632): the literal
keys, the four `|=` unions (all keys fresh, hence appended in order), and the
four tool-total assignments appended last. -/
def buildRow (p : Pull) (bug_id head_name head_login base_name base_login : String)
    (prd : PrDetailAgg) (files : List String) (icd rcd rbd : Agg) : Row :=
  [("bug_id", .str bug_id),
   ("tool_created_at", .str (pyOrEmpty p.created_at)),
   ("tool_updated_at", .str (pyOrEmpty p.updated_at)),
   ("tool_closed_at", .str (pyOrEmpty p.closed_at)),
   ("tool_merged_at", .str (pyOrEmpty p.merged_at)),
   ("tool_merge_commit_hash", .str (pyOrEmpty p.merge_commit_sha)),
   ("tool_labels", .str (String.intercalate ";" (collectLabels p))),
   ("tool_files_changed", .str (String.intercalate ";" files)),
   ("head_name", .str head_name),
   ("head_login", .str head_login),
   ("base_name", .str base_name),
   ("base_login", .str base_login),
   ("pr_detail_title_chars", .int prd.title_chars),
   ("pr_detail_body_chars", .int prd.body_chars),
   ("pr_detail_comments_count", .int prd.comments_count),
   ("pr_detail_review_comments_count", .int prd.review_comments_count),
   ("issue_comments_count", .int icd.count),
   ("issue_comments_chars", .int icd.chars),
   ("issue_comments_words", .int icd.words),
   ("issue_comments_bytes", .int icd.bytes),
   ("review_comments_count", .int rcd.count),
   ("review_comments_chars", .int rcd.chars),
   ("review_comments_words", .int rcd.words),
   ("review_comments_bytes", .int rcd.bytes),
   ("review_blocs_count", .int rbd.count),
   ("review_blocs_chars", .int rbd.chars),
   ("review_blocs_words", .int rbd.words),
   ("review_blocs_bytes", .int rbd.bytes),
   ("tool_total_comments_count", .int (icd.count + rcd.count + rbd.count)),
   ("tool_total_chars", .int (icd.chars + rcd.chars + rbd.chars)),
   ("tool_total_words", .int (icd.words + rcd.words + rbd.words)),
   ("tool_total_bytes", .int (icd.bytes + rcd.bytes + rbd.bytes))]

/-- The per-item body of the `summarize_pulls` loop (src/cdc.py:522–632):
fail on a missing number or title, skip (ok none) when no bug id is
extractable, resolve branch details, aggregate the three comment sources and
produce the new row keyed by its bug id. -/
def processPull (p : Pull) : Except String (Option (String × Row)) :=
  match p.number with
  | none => .error "Missing number field in pull request object."
  | some _ =>
    match p.title with
    | none => .error "Missing title field in pull request object."
    | some title =>
      match extract_bug_id_from_title title with
      | none => .ok none
      | some bug_id =>
        match getBranchNameAndLogin p "head" with
        | .error e => .error e
        | .ok (head_name, head_login) =>
          match getBranchNameAndLogin p "base" with
          | .error e => .error e
          | .ok (base_name, base_login) =>
            let prd := collectGetPrDetail p
            let files := collectFilesChanged p
            let icd := aggIssueComments p.issue_comments
            match aggReviewComments p.review_comments with
            | .error e => .error e
            | .ok rcd =>
              .ok (some (bug_id,
                buildRow p bug_id head_name head_login base_name base_login
                  prd files icd rcd (aggReviewBlocs p.review_blocs)))

/-- Python `visited_merged.add(id)` on the set of seen bug ids. -/
def insertVisited (v : Val) (vs : List Val) : List Val :=
  if v ∈ vs then vs else vs ++ [v]

/-- Embedding of `_update_merge_append` (src/cdc.py:257–304). The three mutated arguments
(`visited_merged`, `old_row`, `append_rows`) are passed and returned
explicitly; `print` diagnostics have no state effect. In `"merge"` mode,
`new_row.get("tool_merged_at") != ""` is true for an absent key and for any
non-string value, exactly like the Python comparison. -/
def updateMergeAppend (mode : String) (visited : List Val) (old_row new_row : Row)
    (append_rows : List Row) : Except String (List Val × Row × List Row) :=
  if mode = "update" then
    .ok (visited, dupdate [] new_row, append_rows)
  else if mode = "merge" then
    match dget new_row "bug_id" with
    | none => .error "bug_id in new row is None"
    | some id =>
      if dget new_row "tool_merged_at" ≠ some (Val.str "") then
        if (dget new_row "base_name" = some (Val.str "apache:master")
              ∨ dget new_row "base_name" = some (Val.str "master"))
            ∧ dget new_row "base_login" = some (Val.str "apache") then
          .ok (insertVisited id visited, dupdate old_row new_row, append_rows)
        else
          .ok (visited, old_row, append_rows)
      else
        .ok (visited, old_row, append_rows ++ [new_row])
  else if mode = "append" then
    match dget new_row "bug_id" with
    | none => .error "bug_id in new row is None"
    | some id =>
      if id ∉ visited then
        .ok (insertVisited id visited, dupdate old_row new_row, append_rows)
      else
        .ok (visited, old_row, append_rows ++ [new_row])
  else .error "Unsupported mode in _check_if_append"

/-- Embedding of `_within_window` (src/cdc.py:125–127): created_at at or after the start
timestamp, no upper bound. -/
def withinWindow (start created : Int) : Bool := start ≤ created

/-- The list comprehension of `filter_pulls` (src/cdc.py:137–141), with the
field accesses `pr["created_at"]` / `pr["title"]` raising KeyError on absent
fields, in Python evaluation order (the title is only read when the window
test already passed). `start` embeds the module constant START_TIMESTAMP and
`bug_ids` the loaded allow-list. -/
def filterPullsAux (start : Int) (bug_ids : List String) :
    List Pull → Except String (List Pull)
  | [] => .ok []
  | p :: rest =>
    match p.created_time with
    | none => .error "KeyError: created_at"
    | some ct =>
      if withinWindow start ct then
        match p.title with
        | none => .error "KeyError: title"
        | some t =>
          match filterPullsAux start bug_ids rest with
          | .error e => .error e
          | .ok tail =>
            .ok (if matchesTitleInBugIds t bug_ids then p :: tail else tail)
      else
        match filterPullsAux start bug_ids rest with
        | .error e => .error e
        | .ok tail => .ok tail

/-- Embedding of `filter_pulls` (src/cdc.py:122–149) with the allow-list passed in (the
source reads it from cdc_output/select_bugs.txt). -/
def filterPulls (start : Int) (bug_ids : List String) (raw : List Pull) :
    Except String (List Pull) :=
  filterPullsAux start bug_ids raw

/-- The claim-side filter predicate: kept iff the creation timestamp is at or
after the window start and the identifier extracted from the title is in the
allow-list. -/
def keptByClaim (start : Int) (bug_ids : List String) (p : Pull) : Bool :=
  match p.created_time, p.title with
  | some ct, some t =>
    decide (start ≤ ct)
      && (match extract_bug_id_from_title t with
          | some id => decide (id ∈ bug_ids)
          | none => false)
  | _, _ => false

/-- Python `existing.get("bug_id")` truthiness used when building
`rows_by_bug_hashmap` (src/cdc.py:514–518). -/
def bugKey (r : Row) : Option Val :=
  match dget r "bug_id" with
  | some v => if truthy v then some v else none
  | none => none

/-- Index lookup embedding `rows_by_bug_hashmap` (src/cdc.py:514–518): the
dict comprehension keeps, for each truthy bug id, the LAST row carrying it;
rows are identified by their position in the loaded list. -/
def lookupRowIdxAux : List Row → String → Nat → Option Nat
  | [], _, _ => none
  | r :: rest, b, i =>
    match lookupRowIdxAux rest b (i + 1) with
    | some j => some j
    | none => if bugKey r = some (Val.str b) then some i else none

/-- Position of the curated row the hashmap associates with bug id `b`. -/
def lookupRowIdx (rows : List Row) (b : String) : Option Nat :=
  lookupRowIdxAux rows b 0

/-- The mode string `summarize_pulls` passes to `_update_merge_append`
(src/cdc.py:640–656): "update" when force_update is set, else "merge". -/
def modeSelected (force_update : Bool) : String :=
  if force_update then "update" else "merge"

/-- The mutable state of the `summarize_pulls` loop: the loaded curated rows
(`rows`), the not-matched rows (`not_included_rows`), the overflow rows
(`append_rows`) and the set of visited merged ids. -/
structure SumState where
  rows : List Row
  notInc : List Row
  app : List Row
  visited : List Val
deriving DecidableEq, Repr

/-- The `for pr in pulls` loop of `summarize_pulls` (src/cdc.py:522–656):
process each pull, route unmatched rows to `not_included_rows`, and reconcile
matched rows through `_update_merge_append` with the selected mode, mutating
the curated row in place (`List.set` at the looked-up position). -/
def sumLoop (lookup : String → Option Nat) (force_update : Bool) :
    List Pull → SumState → Except String SumState
  | [], st => .ok st
  | p :: rest, st =>
    match processPull p with
    | .error e => .error e
    | .ok none => sumLoop lookup force_update rest st
    | .ok (some (bug_id, newRow)) =>
      match lookup bug_id with
      | none =>
        sumLoop lookup force_update rest { st with notInc := st.notInc ++ [newRow] }
      | some i =>
        match updateMergeAppend (modeSelected force_update) st.visited
            (st.rows.getD i []) newRow st.app with
        | .error e => .error e
        | .ok (visited', old', app') =>
          sumLoop lookup force_update rest
            { rows := st.rows.set i old', notInc := st.notInc,
              app := app', visited := visited' }

/-- Embedding of `summarize_pulls` (src/cdc.py:502–671) over already-resolved pulls and the
loaded curated rows, returning the three output tables (curated, not-included,
append) that the source serializes to output.csv / not_included.csv /
append.csv. The empty-pulls early return writes no files; it is modelled as
returning the inputs untouched. -/
def summarizePulls (pulls : List Pull) (initRows : List Row)
    (force_update : Bool) : Except String (List Row × List Row × List Row) :=
  match pulls with
  | [] => .ok (initRows, [], [])
  | _ :: _ =>
    match sumLoop (lookupRowIdx initRows) force_update pulls
        ⟨initRows, [], [], []⟩ with
    | .error e => .error e
    | .ok st => .ok (st.rows, st.notInc, st.app)

/-- The end-to-end scenario item of the spec: titled "[X-1] add feature",
created exactly at the window start (timestamp 100 here), two issue comments
with bodies "hi" and "there you go", no review comments, no review blocs. -/
def scenarioPull : Pull :=
  { number := some 1
  , title := some "[X-1] add feature"
  , merge_commit_sha := none
  , created_at := some "2024-03-05T00:00:00Z"
  , created_time := some 100
  , updated_at := none
  , closed_at := none
  , merged_at := none
  , labels := []
  , head := some ⟨some "octo:feature", some ⟨some "octo"⟩⟩
  , base := some ⟨some "apache:master", some ⟨some "apache"⟩⟩
  , detail := ⟨.str "[X-1] add feature", .null, 2, 0⟩
  , files := []
  , issue_comments := [⟨.str "hi"⟩, ⟨.str "there you go"⟩]
  , review_comments := []
  , review_blocs := [] }

/-- The Metric Row `summarize_pulls` builds for `scenarioPull`. -/
def scenarioRow : Row :=
  match processPull scenarioPull with
  | .ok (some (_, r)) => r
  | _ => []

/-- A merged pull for bug X-1 whose base branch is a release branch, not
apache:master: under "merge" mode it is a backport and is dropped. -/
def backportPull : Pull :=
  { number := some 2
  , title := some "[X-1] backport fix"
  , merge_commit_sha := some "abc123"
  , created_at := some "2024-05-01T00:00:00Z"
  , created_time := some 200
  , updated_at := none
  , closed_at := some "2024-06-01T00:00:00Z"
  , merged_at := some "2024-06-01T00:00:00Z"
  , labels := []
  , head := some ⟨some "octo:fix", some ⟨some "octo"⟩⟩
  , base := some ⟨some "apache:release-3.1", some ⟨some "apache"⟩⟩
  , detail := ⟨.str "[X-1] backport fix", .null, 0, 0⟩
  , files := []
  , issue_comments := []
  , review_comments := []
  , review_blocs := [] }

/-- The Metric Row `summarize_pulls` builds for `backportPull`. -/
def backportNewRow : Row :=
  match processPull backportPull with
  | .ok (some (_, r)) => r
  | _ => []

/-- A pre-existing curated row for bug X-1, as loaded from input.csv (CSV
values are strings). -/
def curatedRowX1 : Row :=
  [("bug_id", .str "X-1"),
   ("tool_created_at", .str "2024-03-05T00:00:00Z"),
   ("tool_merged_at", .str ""),
   ("issue_comments_count", .str "7")]

/-- Shape of a successful `processPull`: the produced row is `buildRow`
applied to the pull's resolved data. -/
theorem processPull_ok_shape (p : Pull) (b : String) (row : Row)
    (h : processPull p = .ok (some (b, row))) :
    ∃ hn hl bn bl rcd,
      getBranchNameAndLogin p "head" = .ok (hn, hl) ∧
      getBranchNameAndLogin p "base" = .ok (bn, bl) ∧
      aggReviewComments p.review_comments = .ok rcd ∧
      row = buildRow p b hn hl bn bl (collectGetPrDetail p)
        (collectFilesChanged p) (aggIssueComments p.issue_comments) rcd
        (aggReviewBlocs p.review_blocs) := by
  unfold processPull at h
  repeat' split at h
  all_goals try (exfalso; exact Except.noConfusion h)
  all_goals try (exfalso; exact Option.noConfusion (Except.ok.inj h))
  simp only [Except.ok.injEq, Option.some.injEq, Prod.mk.injEq] at h
  obtain ⟨rfl, hrow⟩ := h
  refine ⟨_, _, _, _, _, ?_, ?_, ?_, hrow.symm⟩ <;> assumption

/-- C1. For every Metric Row emitted by summarize_pulls, each of the four
tool-level total fields equals exactly the sum of the corresponding fields of
the three source groups (src/cdc.py:620–632), including when any group is
all-zero. -/
theorem tool_totals_are_group_sums (p : Pull) (b : String) (row : Row)
    (h : processPull p = .ok (some (b, row))) :
    ∃ g1 g2 g3 : Agg,
      dget row "issue_comments_count" = some (.int g1.count) ∧
      dget row "review_comments_count" = some (.int g2.count) ∧
      dget row "review_blocs_count" = some (.int g3.count) ∧
      dget row "tool_total_comments_count"
        = some (.int (g1.count + g2.count + g3.count)) ∧
      dget row "issue_comments_chars" = some (.int g1.chars) ∧
      dget row "review_comments_chars" = some (.int g2.chars) ∧
      dget row "review_blocs_chars" = some (.int g3.chars) ∧
      dget row "tool_total_chars" = some (.int (g1.chars + g2.chars + g3.chars)) ∧
      dget row "issue_comments_words" = some (.int g1.words) ∧
      dget row "review_comments_words" = some (.int g2.words) ∧
      dget row "review_blocs_words" = some (.int g3.words) ∧
      dget row "tool_total_words" = some (.int (g1.words + g2.words + g3.words)) ∧
      dget row "issue_comments_bytes" = some (.int g1.bytes) ∧
      dget row "review_comments_bytes" = some (.int g2.bytes) ∧
      dget row "review_blocs_bytes" = some (.int g3.bytes) ∧
      dget row "tool_total_bytes" = some (.int (g1.bytes + g2.bytes + g3.bytes)) := by
  obtain ⟨hn, hl, bn, bl, rcd, _, _, _, rfl⟩ := processPull_ok_shape p b row h
  exact ⟨aggIssueComments p.issue_comments, rcd, aggReviewBlocs p.review_blocs,
    rfl, rfl, rfl, rfl, rfl, rfl, rfl, rfl, rfl, rfl, rfl, rfl, rfl, rfl, rfl, rfl⟩

/-- Witness for C1 at the concrete scenario pull. -/
theorem tool_totals_are_group_sums_witness :
    ∃ g1 g2 g3 : Agg,
      dget scenarioRow "issue_comments_count" = some (.int g1.count) ∧
      dget scenarioRow "review_comments_count" = some (.int g2.count) ∧
      dget scenarioRow "review_blocs_count" = some (.int g3.count) ∧
      dget scenarioRow "tool_total_comments_count"
        = some (.int (g1.count + g2.count + g3.count)) ∧
      dget scenarioRow "issue_comments_chars" = some (.int g1.chars) ∧
      dget scenarioRow "review_comments_chars" = some (.int g2.chars) ∧
      dget scenarioRow "review_blocs_chars" = some (.int g3.chars) ∧
      dget scenarioRow "tool_total_chars"
        = some (.int (g1.chars + g2.chars + g3.chars)) ∧
      dget scenarioRow "issue_comments_words" = some (.int g1.words) ∧
      dget scenarioRow "review_comments_words" = some (.int g2.words) ∧
      dget scenarioRow "review_blocs_words" = some (.int g3.words) ∧
      dget scenarioRow "tool_total_words"
        = some (.int (g1.words + g2.words + g3.words)) ∧
      dget scenarioRow "issue_comments_bytes" = some (.int g1.bytes) ∧
      dget scenarioRow "review_comments_bytes" = some (.int g2.bytes) ∧
      dget scenarioRow "review_blocs_bytes" = some (.int g3.bytes) ∧
      dget scenarioRow "tool_total_bytes"
        = some (.int (g1.bytes + g2.bytes + g3.bytes)) :=
  tool_totals_are_group_sums scenarioPull "X-1" scenarioRow (by rfl)

/-- C7. Under the conditional-merge policy ("merge" mode), a matched new row
whose merge timestamp field is the empty string is appended to the overflow
collection, and the matched curated row and the visited set are returned
entirely unchanged (src/cdc.py:271, 287–288). -/
theorem merge_unmerged_row_overflows (visited : List Val) (old_row new_row : Row)
    (append_rows : List Row) (v : Val)
    (hb : dget new_row "bug_id" = some v)
    (hm : dget new_row "tool_merged_at" = some (Val.str "")) :
    updateMergeAppend "merge" visited old_row new_row append_rows
      = .ok (visited, old_row, append_rows ++ [new_row]) := by
  unfold updateMergeAppend
  rw [if_neg (by decide), if_pos rfl, hb, hm]
  simp

/-- Witness for C7: a concrete unmerged matched row is routed to overflow and
the curated row keeps every field. -/
theorem merge_unmerged_row_overflows_witness :
    updateMergeAppend "merge" [] curatedRowX1
        [("bug_id", Val.str "X-1"), ("tool_merged_at", Val.str "")] []
      = .ok ([], curatedRowX1,
          [[("bug_id", Val.str "X-1"), ("tool_merged_at", Val.str "")]]) :=
  merge_unmerged_row_overflows [] curatedRowX1
    [("bug_id", Val.str "X-1"), ("tool_merged_at", Val.str "")] []
    (Val.str "X-1") (by rfl) (by rfl)

/-- C10. The pipeline only ever selects mode "update" (force_update set) or
"merge" (otherwise) when invoking the reconciler (src/cdc.py:640–656); mode
"append" is never selected, and the unsupported-mode error branch of
`_update_merge_append` is unreachable from `summarize_pulls` (`sumLoop` calls
`updateMergeAppend` with `modeSelected force_update`). -/
theorem pipeline_never_selects_append_mode :
    ∀ force_update : Bool,
      (modeSelected force_update = "update" ∨ modeSelected force_update = "merge")
      ∧ modeSelected force_update ≠ "append"
      ∧ ∀ (visited : List Val) (old_row new_row : Row) (append_rows : List Row),
          updateMergeAppend (modeSelected force_update) visited old_row new_row
              append_rows
            ≠ .error "Unsupported mode in _check_if_append" := by
  intro fu
  refine ⟨?_, ?_, ?_⟩
  · cases fu
    · exact Or.inr rfl
    · exact Or.inl rfl
  · cases fu <;> decide
  · intro visited old_row new_row append_rows
    cases fu
    · show updateMergeAppend "merge" _ _ _ _ ≠ _
      unfold updateMergeAppend
      rw [if_neg (by decide), if_pos rfl]
      rcases hd : dget new_row "bug_id" with _ | id
      · simp only [hd]
        intro hc
        exact absurd (Except.error.inj hc) (by decide)
      · simp only [hd]
        split
        · split <;> exact fun hc => Except.noConfusion hc
        · exact fun hc => Except.noConfusion hc
    · show updateMergeAppend "update" _ _ _ _ ≠ _
      unfold updateMergeAppend
      rw [if_pos rfl]
      simp

/-- The allow-list membership test of `_matches_title_in_bug_ids` coincides
with membership of the value of `extract_bug_id_from_title` (both search
TITLE_PATTERN and strip the bracket characters). -/
theorem matchesTitle_eq_extract (t : String) (bids : List String) :
    matchesTitleInBugIds t bids
      = (match extract_bug_id_from_title t with
         | some id => decide (id ∈ bids)
         | none => false) := by
  unfold matchesTitleInBugIds extract_bug_id_from_title
  cases searchKey t.data <;> simp

/-- C4. `filter_pulls` keeps an item iff its creation timestamp is at or after
the window start (inclusive lower bound, no upper bound) and the identifier
extracted from its title is in the allow-list; the kept items form a sublist
of the input, so their relative order is preserved (src/cdc.py:122–149). -/
theorem filter_pulls_keeps_iff (start : Int) (bids : List String) (raw : List Pull)
    (h : ∀ p ∈ raw, p.created_time.isSome ∧ p.title.isSome) :
    filterPulls start bids raw = .ok (raw.filter (keptByClaim start bids))
      ∧ (raw.filter (keptByClaim start bids)).Sublist raw := by
  refine ⟨?_, List.filter_sublist raw⟩
  induction raw with
  | nil => rfl
  | cons p rest ih =>
    obtain ⟨hct, ht⟩ := h p (List.mem_cons_self p rest)
    obtain ⟨ct, hct⟩ := Option.isSome_iff_exists.mp hct
    obtain ⟨t, ht⟩ := Option.isSome_iff_exists.mp ht
    have ihh : filterPullsAux start bids rest
        = .ok (rest.filter (keptByClaim start bids)) :=
      ih (fun q hq => h q (List.mem_cons_of_mem p hq))
    have hkept : keptByClaim start bids p
        = (withinWindow start ct && matchesTitleInBugIds t bids) := by
      unfold keptByClaim withinWindow
      rw [hct, ht, matchesTitle_eq_extract]
    show filterPullsAux start bids (p :: rest) = _
    simp only [filterPullsAux, hct, ht, ihh, List.filter_cons, hkept]
    cases hw : withinWindow start ct <;>
      cases hm : matchesTitleInBugIds t bids <;> simp [hw, hm]

/-- Witness for C4 at a concrete one-item list: the scenario pull is kept. -/
theorem filter_pulls_keeps_iff_witness :
    filterPulls 0 ["X-1"] [scenarioPull]
        = .ok ([scenarioPull].filter (keptByClaim 0 ["X-1"]))
      ∧ ([scenarioPull].filter (keptByClaim 0 ["X-1"])).Sublist [scenarioPull] :=
  filter_pulls_keeps_iff 0 ["X-1"] [scenarioPull] (by decide)

/-- C3 (code bug). The claim requires a missing or none text value to count as
the empty string for issue comments and review comments alike. The issue path
(`str(comment.get("body") or "")`, src/cdc.py:402) does so, but the review
path (`str(comment.get("body","").strip())`, src/cdc.py:435) applies `.strip()`
before `str(...)`, so an explicit null body reaches `.strip()` as `None` and
raises AttributeError instead of contributing zero. -/
theorem review_comment_null_body_raises :
    aggReviewComments [⟨JField.null⟩]
        = .error "AttributeError: NoneType object has no attribute strip"
      ∧ aggIssueComments [⟨JField.null⟩] = ⟨1, 0, 0, 0⟩
      ∧ aggReviewComments [⟨JField.missing⟩] = .ok ⟨1, 0, 0, 0⟩ :=
  ⟨rfl, rfl, rfl⟩

/-- Under well-formed pagination (all pages before the last hold at least
`per_page` records, and `per_page` is positive), the network loop of
`collect_review_blocs` visits every page and accumulates the per-batch
filtered records. -/
theorem fetchBlocsLoop_eq_filter_flatten (perPage : Nat) (hpp : 0 < perPage) :
    ∀ pages : List (List CRec), pagesWellFormed perPage pages →
      fetchBlocsLoop perPage pages = pages.flatten.filter blocBodyNonEmpty := by
  intro pages
  induction pages with
  | nil => intro _; rfl
  | cons batch rest ih =>
    intro hwf
    cases rest with
    | nil =>
      show fetchBlocsLoop perPage [batch] = _
      unfold fetchBlocsLoop
      by_cases hb : batch.isEmpty
      · rw [List.isEmpty_iff.mp hb]
        simp
      · rw [if_neg hb]
        split <;> simp [fetchBlocsLoop]
    | cons b2 r2 =>
      have hlen : perPage ≤ batch.length := by
        refine hwf batch ?_
        rw [List.dropLast_cons₂]
        exact List.mem_cons_self batch _
      have hwf2 : pagesWellFormed perPage (b2 :: r2) := by
        intro l hl
        refine hwf l ?_
        rw [List.dropLast_cons₂]
        exact List.mem_cons_of_mem batch hl
      have hne : ¬ batch.isEmpty := by
        intro hb
        rw [List.isEmpty_iff.mp hb] at hlen
        simp at hlen
        omega
      show fetchBlocsLoop perPage (batch :: b2 :: r2) = _
      unfold fetchBlocsLoop
      rw [if_neg hne, if_neg (by omega), ih hwf2]
      simp [List.filter_append]

/-- C5. Given identical underlying records (the same well-formed page list),
`collect_review_blocs` produces the same filtered output whether the records
come from the page cache or from paginated network fetch: the non-empty-body
predicate of src/cdc.py:478–482 is applied on both paths. -/
theorem blocs_cache_network_equiv (perPage : Nat) (pages : List (List CRec))
    (hpp : 0 < perPage) (hwf : pagesWellFormed perPage pages) :
    collectBlocsFromNetwork perPage pages = collectBlocsFromCache pages := by
  unfold collectBlocsFromNetwork collectBlocsFromCache
  rw [fetchBlocsLoop_eq_filter_flatten perPage hpp pages hwf, List.filter_filter]
  exact List.filter_congr (fun a _ => Bool.and_self _)

/-- Concrete pages for the C5 witness: page 1 full (one record with text, one
with a null body), page 2 short. -/
def pagesW : List (List CRec) := [[⟨.str "x"⟩, ⟨.null⟩], [⟨.str "y"⟩]]

/-- Witness for C5 at concrete pages with per_page = 2. -/
theorem blocs_cache_network_equiv_witness :
    collectBlocsFromNetwork 2 pagesW = collectBlocsFromCache pagesW :=
  blocs_cache_network_equiv 2 pagesW (by decide)
    (by unfold pagesWellFormed; decide)

/-- The cache loading loop (`_load_cached_issue_comments` and its siblings)
returns the concatenation of the contiguous pages present from the start page
up to the first missing page, and reports a hit iff the start page exists. -/
theorem loadCachedPages_spec (cache : PageCache) :
    ∀ (k fuel page : Nat) (ps : Nat → List CRec), k < fuel →
      (∀ j, j < k → cache (page + j) = some (ps j)) →
      cache (page + k) = none →
      loadCachedPages cache fuel page
        = (((List.range k).map ps).flatten, decide (0 < k)) := by
  intro k
  induction k with
  | zero =>
    intro fuel page ps hf hp hm
    cases fuel with
    | zero => omega
    | succ m =>
      show loadCachedPages cache (m + 1) page = _
      unfold loadCachedPages
      rw [show cache page = none from hm]
      simp
  | succ k ih =>
    intro fuel page ps hf hp hm
    cases fuel with
    | zero => omega
    | succ m =>
      have h0 : cache page = some (ps 0) := hp 0 (by omega)
      have ihh := ih m (page + 1) (fun j => ps (j + 1)) (by omega)
        (fun j hj => by
          have h2 := hp (j + 1) (by omega)
          rwa [show page + (j + 1) = page + 1 + j by omega] at h2)
        (by rwa [show page + 1 + k = page + (k + 1) by omega])
      show loadCachedPages cache (m + 1) page = _
      unfold loadCachedPages
      rw [h0, ihh]
      rw [List.range_succ_eq_map]
      simp only [List.map_cons, List.flatten_cons, List.map_map]
      rw [decide_eq_true (Nat.succ_pos k)]
      rfl

/-- C6. If the page-1 cache file exists, the resolver of
`collect_issue_comments` returns exactly the concatenation of the contiguous
cached pages starting at page 1 up to the first missing page number and never
consults the network; the network runs only when no page-1 cache file exists
(src/cdc.py:151–165 and 383–399). -/
theorem cache_hit_is_authoritative (cache : PageCache) (fuel k perPage : Nat)
    (netPages : List (List CRec)) (ps : Nat → List CRec)
    (hf : k < fuel)
    (hp : ∀ j, j < k → cache (1 + j) = some (ps j))
    (hm : cache (1 + k) = none) :
    (0 < k →
      resolveIssueComments cache fuel perPage netPages
        = (((List.range k).map ps).flatten, false))
    ∧ (k = 0 →
      resolveIssueComments cache fuel perPage netPages
        = (fetchLoop perPage netPages, true)) := by
  have hl := loadCachedPages_spec cache k fuel 1 ps hf hp hm
  constructor
  · intro hk
    unfold resolveIssueComments
    rw [hl]
    simp [hk]
  · intro hk
    subst hk
    unfold resolveIssueComments
    rw [hl]
    simp

/-- Concrete cache for the C6 witness: pages 1 and 2 exist, page 3 does not. -/
def cacheW : PageCache :=
  fun n => if n = 1 then some [⟨.str "a"⟩] else if n = 2 then some [⟨.str "b"⟩] else none

/-- Page contents of `cacheW` by index. -/
def psW : Nat → List CRec := fun j => if j = 0 then [⟨.str "a"⟩] else [⟨.str "b"⟩]

/-- Witness for C6: on `cacheW` the resolver returns pages 1–2 concatenated
without touching the network; on an empty cache it runs the network loop. -/
theorem cache_hit_is_authoritative_witness :
    resolveIssueComments cacheW 10 100 [[⟨.str "z"⟩]]
        = ([⟨.str "a"⟩, ⟨.str "b"⟩], false)
      ∧ resolveIssueComments (fun _ => none) 10 100 [[⟨.str "z"⟩]]
        = ([⟨.str "z"⟩], true) := by
  constructor
  · have h := (cache_hit_is_authoritative cacheW 10 2 100 [[⟨.str "z"⟩]] psW
      (by decide)
      (by intro j hj; interval_cases j <;> rfl)
      (by rfl)).1 (by decide)
    exact h.trans (by decide)
  · have h := (cache_hit_is_authoritative (fun _ => none) 10 0 100 [[⟨.str "z"⟩]] psW
      (by decide)
      (by intro j hj; exact absurd hj (Nat.not_lt_zero j))
      (by rfl)).2 rfl
    exact h.trans (by decide)

/-- The scenario pull with its number field removed. -/
def pullNoNumber : Pull := { scenarioPull with number := none }

/-- The scenario pull with its title field removed. -/
def pullNoTitle : Pull := { scenarioPull with title := none }

/-- The scenario pull with a title carrying no tracked identifier. -/
def pullNoId : Pull := { scenarioPull with title := some "random title" }

/-- C8. In the `summarize_pulls` loop, an item without the numeric number
field or without the title field raises immediately, aborting the run with no
output row for that item; an item whose title yields no extractable bug id is
skipped and processing continues with the remaining items unchanged
(src/cdc.py:522–533). -/
theorem malformed_pull_aborts_unrecognized_skips
    (lookup : String → Option Nat) (fu : Bool) (p : Pull) (rest : List Pull)
    (st : SumState) :
    (p.number = none →
      sumLoop lookup fu (p :: rest) st
        = .error "Missing number field in pull request object.")
    ∧ (∀ n : Int, p.number = some n → p.title = none →
      sumLoop lookup fu (p :: rest) st
        = .error "Missing title field in pull request object.")
    ∧ (∀ (n : Int) (t : String), p.number = some n → p.title = some t →
      extract_bug_id_from_title t = none →
      sumLoop lookup fu (p :: rest) st = sumLoop lookup fu rest st) := by
  refine ⟨?_, ?_, ?_⟩
  · intro hn
    show sumLoop lookup fu (p :: rest) st = _
    unfold sumLoop processPull
    simp only [hn]
  · intro n hn ht
    show sumLoop lookup fu (p :: rest) st = _
    unfold sumLoop processPull
    simp only [hn, ht]
  · intro n t hn ht he
    show sumLoop lookup fu (p :: rest) st = _
    conv_lhs => rw [sumLoop]
    unfold processPull
    simp only [hn, ht, he]

/-- Witness for C8 at three concrete malformed/unrecognized items. -/
theorem malformed_pull_aborts_unrecognized_skips_witness :
    sumLoop (fun _ => none) false [pullNoNumber] ⟨[], [], [], []⟩
        = .error "Missing number field in pull request object."
      ∧ sumLoop (fun _ => none) false [pullNoTitle] ⟨[], [], [], []⟩
        = .error "Missing title field in pull request object."
      ∧ sumLoop (fun _ => none) false [pullNoId] ⟨[], [], [], []⟩
        = sumLoop (fun _ => none) false [] ⟨[], [], [], []⟩ :=
  ⟨(malformed_pull_aborts_unrecognized_skips (fun _ => none) false pullNoNumber []
      ⟨[], [], [], []⟩).1 rfl,
   (malformed_pull_aborts_unrecognized_skips (fun _ => none) false pullNoTitle []
      ⟨[], [], [], []⟩).2.1 1 rfl rfl,
   (malformed_pull_aborts_unrecognized_skips (fun _ => none) false pullNoId []
      ⟨[], [], [], []⟩).2.2 1 "random title" rfl rfl rfl⟩

/-- C9 (counterexample). For the end-to-end scenario item (allow-list
`["X-1"]`, title `"[X-1] add feature"`, created at window start, issue
comments "hi" and "there you go", no review comments or blocs), the claimed
values issue_comments_chars = 11 and issue_comments_words = 3 are wrong: the
code computes 2 + 12 = 14 characters and 1 + 3 = 4 words. -/
theorem scenario_chars_words_claim_false :
    processPull scenarioPull = .ok (some ("X-1", scenarioRow))
      ∧ filterPulls 100 ["X-1"] [scenarioPull] = .ok [scenarioPull]
      ∧ ¬(dget scenarioRow "issue_comments_chars" = some (.int 11)
          ∧ dget scenarioRow "issue_comments_words" = some (.int 3)) :=
  ⟨rfl, rfl, by decide⟩

/-- C9 (amended). The scenario item passes the filter and its Metric Row has
issue_comments_count = 2, issue_comments_chars = 14, issue_comments_words = 4
and tool_total_comments_count = 2. -/
theorem scenario_metric_row_values :
    filterPulls 100 ["X-1"] [scenarioPull] = .ok [scenarioPull]
      ∧ dget scenarioRow "issue_comments_count" = some (.int 2)
      ∧ dget scenarioRow "issue_comments_chars" = some (.int 14)
      ∧ dget scenarioRow "issue_comments_words" = some (.int 4)
      ∧ dget scenarioRow "tool_total_comments_count" = some (.int 2) :=
  ⟨rfl, rfl, rfl, rfl, rfl⟩

/-- A row produced by `processPull` carries its bug id in the `bug_id`
field. -/
theorem processPull_bug_id (p : Pull) (b : String) (row : Row)
    (h : processPull p = .ok (some (b, row))) :
    dget row "bug_id" = some (Val.str b) := by
  obtain ⟨hn, hl, bn, bl, rcd, _, _, _, rfl⟩ := processPull_ok_shape p b row h
  rfl

/-- Writing back the element read at a position leaves a list unchanged. -/
theorem set_getD_self {α : Type} (l : List α) (i : Nat) (d : α) :
    l.set i (l.getD i d) = l := by
  induction l generalizing i with
  | nil => simp
  | cons a l ih =>
    cases i with
    | zero => rfl
    | succ n =>
      show a :: l.set n (l.getD n d) = a :: l
      rw [ih n]

/-- Reduction of `_update_merge_append` in "merge" mode once the bug id is
known to be present. -/
theorem updateMergeAppend_merge_cases (visited : List Val) (old new : Row)
    (app : List Row) (v : Val) (hb : dget new "bug_id" = some v) :
    updateMergeAppend "merge" visited old new app
      = (if dget new "tool_merged_at" ≠ some (Val.str "") then
          (if (dget new "base_name" = some (Val.str "apache:master")
                ∨ dget new "base_name" = some (Val.str "master"))
              ∧ dget new "base_login" = some (Val.str "apache") then
            .ok (insertVisited v visited, dupdate old new, app)
          else .ok (visited, old, app))
        else .ok (visited, old, app ++ [new])) := by
  unfold updateMergeAppend
  rw [if_neg (by decide), if_pos rfl, hb]

/-- C2 (counterexample). A merged new row targeting a non-canonical base
branch (a backport), reconciled in "merge" mode against a curated table that
matches its bug id, ends up in NONE of the three outputs: the curated table is
returned byte-for-byte unchanged, and the not-included and append tables stay
empty (src/cdc.py:283–286 only prints and drops the row). -/
theorem backport_row_lands_nowhere :
    processPull backportPull = .ok (some ("X-1", backportNewRow))
      ∧ summarizePulls [backportPull] [curatedRowX1] false
        = .ok ([curatedRowX1], [], [])
      ∧ backportNewRow ∉ ([curatedRowX1] : List Row)
      ∧ curatedRowX1 ≠ backportNewRow :=
  ⟨rfl, rfl, by decide, by decide⟩

/-- C2 (amended). Each new row processed by the `summarize_pulls` loop ends
up in at most one of the three outputs, and in exactly one — appended to the
not-included table, written in place over the matched curated row, or appended
to the overflow table — except in "merge" mode for a matched row whose merge
timestamp is set but whose base branch is not canonical, which changes
nothing and lands nowhere. -/
theorem new_row_single_placement (lookup : String → Option Nat) (fu : Bool)
    (p : Pull) (rest : List Pull) (st : SumState) (b : String) (newRow : Row)
    (h : processPull p = .ok (some (b, newRow))) :
    ∃ st', sumLoop lookup fu (p :: rest) st = sumLoop lookup fu rest st'
      ∧ ((lookup b = none
            ∧ st' = { st with notInc := st.notInc ++ [newRow] })
        ∨ (∃ i old', lookup b = some i
            ∧ (old' = dupdate (st.rows.getD i []) newRow
                ∨ old' = dupdate [] newRow)
            ∧ st'.rows = st.rows.set i old'
            ∧ st'.notInc = st.notInc ∧ st'.app = st.app)
        ∨ (lookup b ≠ none ∧ st' = { st with app := st.app ++ [newRow] })
        ∨ (modeSelected fu = "merge"
            ∧ dget newRow "tool_merged_at" ≠ some (Val.str "")
            ∧ ¬((dget newRow "base_name" = some (Val.str "apache:master")
                  ∨ dget newRow "base_name" = some (Val.str "master"))
                ∧ dget newRow "base_login" = some (Val.str "apache"))
            ∧ lookup b ≠ none ∧ st' = st)) := by
  have hb := processPull_bug_id p b newRow h
  cases hlk : lookup b with
  | none =>
    refine ⟨{ st with notInc := st.notInc ++ [newRow] }, ?_, Or.inl ⟨rfl, rfl⟩⟩
    conv_lhs => rw [sumLoop]
    simp only [h, hlk]
  | some i =>
    cases fu with
    | true =>
      refine ⟨{ rows := st.rows.set i (dupdate [] newRow), notInc := st.notInc,
                app := st.app, visited := st.visited }, ?_,
        Or.inr (Or.inl ⟨i, dupdate [] newRow, rfl, Or.inr rfl, rfl, rfl, rfl⟩)⟩
      conv_lhs => rw [sumLoop]
      simp only [h, hlk]
      rfl
    | false =>
      by_cases hmg : dget newRow "tool_merged_at" ≠ some (Val.str "")
      · by_cases hcn : (dget newRow "base_name" = some (Val.str "apache:master")
              ∨ dget newRow "base_name" = some (Val.str "master"))
            ∧ dget newRow "base_login" = some (Val.str "apache")
        · refine ⟨{ rows := st.rows.set i (dupdate (st.rows.getD i []) newRow),
                    notInc := st.notInc, app := st.app,
                    visited := insertVisited (Val.str b) st.visited }, ?_,
            Or.inr (Or.inl ⟨i, dupdate (st.rows.getD i []) newRow, rfl,
              Or.inl rfl, rfl, rfl, rfl⟩)⟩
          conv_lhs => rw [sumLoop]
          simp only [h, hlk]
          rw [show modeSelected false = "merge" from rfl,
            updateMergeAppend_merge_cases st.visited (st.rows.getD i []) newRow
              st.app (Val.str b) hb, if_pos hmg, if_pos hcn]
        · refine ⟨st, ?_, Or.inr (Or.inr (Or.inr
            ⟨rfl, hmg, hcn, by simp [hlk], rfl⟩))⟩
          conv_lhs => rw [sumLoop]
          simp only [h, hlk]
          rw [show modeSelected false = "merge" from rfl,
            updateMergeAppend_merge_cases st.visited (st.rows.getD i []) newRow
              st.app (Val.str b) hb, if_pos hmg, if_neg hcn]
          show sumLoop lookup false rest
              { rows := st.rows.set i (st.rows.getD i []), notInc := st.notInc,
                app := st.app, visited := st.visited }
            = sumLoop lookup false rest st
          rw [set_getD_self]
      · refine ⟨{ st with app := st.app ++ [newRow] }, ?_,
          Or.inr (Or.inr (Or.inl ⟨by simp [hlk], rfl⟩))⟩
        conv_lhs => rw [sumLoop]
        simp only [h, hlk]
        rw [show modeSelected false = "merge" from rfl,
          updateMergeAppend_merge_cases st.visited (st.rows.getD i []) newRow
            st.app (Val.str b) hb, if_neg hmg]
        show sumLoop lookup false rest
            { rows := st.rows.set i (st.rows.getD i []), notInc := st.notInc,
              app := st.app ++ [newRow], visited := st.visited }
          = sumLoop lookup false rest { st with app := st.app ++ [newRow] }
        rw [set_getD_self]

/-- Witness for the amended C2 at a concrete matched, unmerged row in "merge"
mode (it is placed exactly once, in the overflow table). -/
theorem new_row_single_placement_witness :
    ∃ st', sumLoop (lookupRowIdx [curatedRowX1]) false [scenarioPull]
          ⟨[curatedRowX1], [], [], []⟩
        = sumLoop (lookupRowIdx [curatedRowX1]) false []
          st'
      ∧ ((lookupRowIdx [curatedRowX1] "X-1" = none
            ∧ st' = { rows := [curatedRowX1], notInc := [] ++ [scenarioRow],
                      app := [], visited := [] })
        ∨ (∃ i old', lookupRowIdx [curatedRowX1] "X-1" = some i
            ∧ (old' = dupdate ([curatedRowX1].getD i []) scenarioRow
                ∨ old' = dupdate [] scenarioRow)
            ∧ st'.rows = [curatedRowX1].set i old'
            ∧ st'.notInc = [] ∧ st'.app = [])
        ∨ (lookupRowIdx [curatedRowX1] "X-1" ≠ none
            ∧ st' = { rows := [curatedRowX1], notInc := [],
                      app := [] ++ [scenarioRow], visited := [] })
        ∨ (modeSelected false = "merge"
            ∧ dget scenarioRow "tool_merged_at" ≠ some (Val.str "")
            ∧ ¬((dget scenarioRow "base_name" = some (Val.str "apache:master")
                  ∨ dget scenarioRow "base_name" = some (Val.str "master"))
                ∧ dget scenarioRow "base_login" = some (Val.str "apache"))
            ∧ lookupRowIdx [curatedRowX1] "X-1" ≠ none
            ∧ st' = ⟨[curatedRowX1], [], [], []⟩)) :=
  new_row_single_placement (lookupRowIdx [curatedRowX1]) false scenarioPull []
    ⟨[curatedRowX1], [], [], []⟩ "X-1" scenarioRow rfl
